import Mathlib

/-!
Verification of the gcalender-mcp repository's specification against a
shallow embedding of its three source files (`note_service.py`,
`calendar_service.py`, `main.py`).

Python dictionaries are modelled as association lists with Python's
semantics: lookup finds the first (unique) key, assignment replaces in
place keeping the position or appends a fresh key, deletion removes the
key.  JSON note documents are modelled by the inductive `Json` (the
constructors cover the value shapes the claims exercise; every non-object
value behaves identically in the embedded code paths).  Fallible Python
code is modelled with `Except PyErr`: an uncaught Python exception is an
`Except.error`.  The filesystem of notes is an association list from
title to the parse result of the file's contents (`none` models a file
whose contents are not valid JSON, so `json.load` raises on it).
-/

/-- A JSON value as stored in a note document. -/
inductive Json where
  | null : Json
  | str : String → Json
  | num : Int → Json
  | obj : List (String × Json) → Json

/-- An uncaught Python exception, as observed by a caller. -/
inductive PyErr where
  | jsonDecodeError : PyErr
  | typeError : PyErr
  | indexError : PyErr
  | valueError : PyErr
  | keyError : String → PyErr
  | httpError : String → PyErr
  deriving DecidableEq, Repr

/-- Python dict lookup: first binding of the key, if any. -/
def alistGet {α : Type} : List (String × α) → String → Option α
  | [], _ => none
  | (k', v) :: rest, k => if k' = k then some v else alistGet rest k

/-- Python dict assignment: replace in place, else append. -/
def alistSet {α : Type} : List (String × α) → String → α → List (String × α)
  | [], k, v => [(k, v)]
  | (k', v') :: rest, k, v =>
    if k' = k then (k', v) :: rest else (k', v') :: alistSet rest k v

/-- Python `del d[k]`: remove the binding of the key. -/
def alistDel {α : Type} : List (String × α) → String → List (String × α)
  | [], _ => []
  | (k', v') :: rest, k => if k' = k then rest else (k', v') :: alistDel rest k

/-- The notes directory: title to parse result of the file's contents
(`none` models contents that are not valid JSON). Membership models
`os.path.exists`. -/
abbrev NoteFS := List (String × Option Json)

def fsGet (fs : NoteFS) (title : String) : Option (Option Json) := alistGet fs title

def fsSet (fs : NoteFS) (title : String) (c : Option Json) : NoteFS := alistSet fs title c

/-- The structured error result the note service returns on checked failures. -/
def errResult (s : String) : Json := Json.obj [("error", Json.str s)]

/-- The structured success result of the note service. -/
def msgResult (s : String) : Json := Json.obj [("message", Json.str s)]

/-- `read_note_content` (note_service.py lines 51-65). -/
def read_note_content (fs : NoteFS) (title : String) : Except PyErr Json :=
  match fsGet fs title with
  | none => .ok (errResult "Note not found.")
  | some none => .error .jsonDecodeError
  | some (some content) => .ok content

/-- The navigation-and-assignment loop of `edit_note_value` (note_service.py
lines 87-93): walk `key[:-1]` creating `{}` at missing keys, then assign at
`key[-1]`.  Navigating into or assigning on a non-dict raises `TypeError`
(Python raises it either at the membership test, the indexing or the item
assignment; the embedding collapses these to one `typeError`).  An empty
key list raises `IndexError` at `key[-1]`. -/
def edit_walk : Json → List String → Json → Except PyErr Json
  | Json.obj d, [k], v => .ok (Json.obj (alistSet d k v))
  | Json.obj d, k :: k2 :: rest, v =>
    let child := (alistGet d k).getD (Json.obj [])
    match edit_walk child (k2 :: rest) v with
    | .ok c => .ok (Json.obj (alistSet d k c))
    | .error e => .error e
  | _, [], _ => .error .indexError
  | _, _ :: _, _ => .error .typeError

/-- `edit_note_value` (note_service.py lines 68-98). -/
def edit_note_value (fs : NoteFS) (title : String) (key : List String) (value : String) :
    Except PyErr (NoteFS × Json) :=
  match fsGet fs title with
  | none => .ok (fs, errResult "Note not found.")
  | some none => .error .jsonDecodeError
  | some (some content) =>
    match edit_walk content key (Json.str value) with
    | .error e => .error e
    | .ok content2 =>
      .ok (fsSet fs title (some content2), msgResult "Note updated successfully.")

/-- The loop of `insert_key_path` (note_service.py lines 119-126).  The
Python loop indexes `key[i]` and `key[i + 1]` while `current` is never
reassigned, so every step operates on the root dictionary `d`. -/
def insert_steps (d : List (String × Json)) : List String → List (String × Json)
  | [] => d
  | k :: rest =>
    let d2 :=
      match alistGet d k with
      | none => alistSet d k (Json.obj [])
      | some (Json.obj _) => d
      | some v =>
        match rest with
        | next :: _ => alistSet d k (Json.obj [(next, v)])
        | [] => d
    insert_steps d2 rest

/-- `insert_key_path` (note_service.py lines 101-131).  A non-object root
document raises `TypeError` as soon as the loop touches it with a
non-empty key list; with an empty key list the loop body never runs and
the document is written back unchanged. -/
def insert_key_path (fs : NoteFS) (title : String) (key : List String) :
    Except PyErr (NoteFS × Json) :=
  match fsGet fs title with
  | none => .ok (fs, errResult "Note not found.")
  | some none => .error .jsonDecodeError
  | some (some (Json.obj d)) =>
    .ok (fsSet fs title (some (Json.obj (insert_steps d key))),
         msgResult "Key inserted successfully.")
  | some (some other) =>
    match key with
    | [] => .ok (fsSet fs title (some other), msgResult "Key inserted successfully.")
    | _ :: _ => .error .typeError

/-- Whether a character list occurs contiguously inside another. -/
def subOccurs (needle : List Char) : List Char → Bool
  | [] => needle.isEmpty
  | c :: rest => needle.isPrefixOf (c :: rest) || subOccurs needle rest

/-- Python's `k in current`: dict membership on objects, substring test on
strings, `TypeError` on other values. -/
def pyContains : Json → String → Except PyErr Bool
  | Json.obj d, k => .ok (alistGet d k).isSome
  | Json.str s, k => .ok (subOccurs k.data s.data)
  | _, _ => .error .typeError

/-- The walk of `delete_key_path` (note_service.py lines 152-162): walk
`key[:-1]`, returning the `Path not found` result at the first missing
intermediate key; then the final key is checked and deleted.  The first
component is `some` of the updated document when the deletion happened
(so the file is written back) and `none` when an early error result is
returned without writing.  Indexing or deleting on a non-dict raises
`TypeError`; an empty key list raises `IndexError` at `key[-1]`. -/
def delete_walk : Json → List String → Except PyErr (Option Json × Json)
  | _, [] => .error .indexError
  | j, [k] =>
    match pyContains j k with
    | .error e => .error e
    | .ok false => .ok (none, errResult ("Key '" ++ k ++ "' not found."))
    | .ok true =>
      match j with
      | Json.obj d => .ok (some (Json.obj (alistDel d k)), msgResult "Key deleted successfully.")
      | _ => .error .typeError
  | j, k :: k2 :: rest =>
    match pyContains j k with
    | .error e => .error e
    | .ok false => .ok (none, errResult ("Path not found: " ++ k))
    | .ok true =>
      match j with
      | Json.obj d =>
        match alistGet d k with
        | some child =>
          match delete_walk child (k2 :: rest) with
          | .error e => .error e
          | .ok (none, r) => .ok (none, r)
          | .ok (some child2, r) => .ok (some (Json.obj (alistSet d k child2)), r)
        | none => .error (.keyError k)
      | _ => .error .typeError

/-- `delete_key_path` (note_service.py lines 134-167). -/
def delete_key_path (fs : NoteFS) (title : String) (key : List String) :
    Except PyErr (NoteFS × Json) :=
  match fsGet fs title with
  | none => .ok (fs, errResult "Note not found.")
  | some none => .error .jsonDecodeError
  | some (some content) =>
    match delete_walk content key with
    | .error e => .error e
    | .ok (none, r) => .ok (fs, r)
    | .ok (some content2, r) => .ok (fsSet fs title (some content2), r)

/-- `create_note_file` (note_service.py lines 5-19): the duplicate-title check. -/
def create_note_file (fs : NoteFS) (title : String) : Except PyErr (NoteFS × Json) :=
  match fsGet fs title with
  | some _ => .ok (fs, errResult "Note with this title already exists.")
  | none => .ok (fsSet fs title (some (Json.obj [])), msgResult "Note created successfully.")

/-- `delete_note_file` (note_service.py lines 22-35). -/
def delete_note_file (fs : NoteFS) (title : String) : Except PyErr (NoteFS × Json) :=
  match fsGet fs title with
  | none => .ok (fs, errResult "Note not found.")
  | some _ => .ok (alistDel fs title, msgResult "Note deleted successfully.")

/-!
Datetime model.  `datetime.datetime.fromisoformat` is embedded as a parser
over the ISO 8601 shapes the calendar backend produces (`YYYY-MM-DD`,
`YYYY-MM-DDTHH:MM:SS` and `YYYY-MM-DDTHH:MM:SS[+-]HH:MM`; fromisoformat
validates field ranges and raises `ValueError` otherwise, modelled by
`none`).  Clock values are at seconds precision.  `strftime` renders the
datetime's own wall-clock fields, without any timezone conversion.
-/
structure PyDateTime where
  year : Nat
  month : Nat
  day : Nat
  hour : Nat
  minute : Nat
  second : Nat
  /-- minutes east of UTC; `none` for a naive datetime -/
  offsetMinutes : Option Int
  deriving DecidableEq, Repr

def digitVal (c : Char) : Option Nat :=
  if c.isDigit then some (c.toNat - 48) else none

def num2 (a b : Char) : Option Nat :=
  match digitVal a, digitVal b with
  | some x, some y => some (10 * x + y)
  | _, _ => none

def num4 (a b c d : Char) : Option Nat :=
  match num2 a b, num2 c d with
  | some x, some y => some (100 * x + y)
  | _, _ => none

/-- The character shapes accepted: date, naive datetime, datetime with offset. -/
def rawParse (s : String) : Option PyDateTime :=
  match s.data with
  | [y1, y2, y3, y4, '-', m1, m2, '-', d1, d2] =>
    match num4 y1 y2 y3 y4, num2 m1 m2, num2 d1 d2 with
    | some y, some mo, some da => some ⟨y, mo, da, 0, 0, 0, none⟩
    | _, _, _ => none
  | [y1, y2, y3, y4, '-', m1, m2, '-', d1, d2, 'T', h1, h2, ':', i1, i2, ':', s1, s2] =>
    match num4 y1 y2 y3 y4, num2 m1 m2, num2 d1 d2, num2 h1 h2, num2 i1 i2, num2 s1 s2 with
    | some y, some mo, some da, some h, some mi, some se => some ⟨y, mo, da, h, mi, se, none⟩
    | _, _, _, _, _, _ => none
  | [y1, y2, y3, y4, '-', m1, m2, '-', d1, d2, 'T', h1, h2, ':', i1, i2, ':', s1, s2,
      sg, o1, o2, ':', o3, o4] =>
    match num4 y1 y2 y3 y4, num2 m1 m2, num2 d1 d2, num2 h1 h2, num2 i1 i2, num2 s1 s2,
        num2 o1 o2, num2 o3 o4 with
    | some y, some mo, some da, some h, some mi, some se, some oh, some om =>
      if sg = '+' then some ⟨y, mo, da, h, mi, se, some ((60 * oh + om : Nat) : Int)⟩
      else if sg = '-' then some ⟨y, mo, da, h, mi, se, some (-((60 * oh + om : Nat) : Int))⟩
      else none
    | _, _, _, _, _, _, _, _ => none
  | _ => none

def isLeap (y : Nat) : Bool :=
  y % 4 = 0 && (y % 100 != 0 || y % 400 = 0)

def daysInMonth (y m : Nat) : Nat :=
  if m = 2 then (if isLeap y then 29 else 28)
  else if m = 4 ∨ m = 6 ∨ m = 9 ∨ m = 11 then 30
  else 31

/-- The field-range validation `fromisoformat` performs. -/
def validDT (dt : PyDateTime) : Bool :=
  1 ≤ dt.year && dt.year ≤ 9999 && 1 ≤ dt.month && dt.month ≤ 12 &&
  1 ≤ dt.day && dt.day ≤ daysInMonth dt.year dt.month &&
  dt.hour ≤ 23 && dt.minute ≤ 59 && dt.second ≤ 59 &&
  (match dt.offsetMinutes with
   | none => true
   | some off => off.natAbs < 1440)

/-- `datetime.datetime.fromisoformat`: parse, then validate. -/
def fromisoformat (s : String) : Option PyDateTime :=
  match rawParse s with
  | some dt => if validDT dt then some dt else none
  | none => none

/-- `instance_start.replace("Z", "+00:00")`. -/
def replaceZChars : List Char → List Char
  | [] => []
  | c :: rest =>
    if c = 'Z' then '+' :: '0' :: '0' :: ':' :: '0' :: '0' :: replaceZChars rest
    else c :: replaceZChars rest

def pyReplaceZ (s : String) : String := ⟨replaceZChars s.data⟩

def pad2 (n : Nat) : String := if n < 10 then "0" ++ toString n else toString n

def pad4 (n : Nat) : String :=
  if n < 10 then "000" ++ toString n
  else if n < 100 then "00" ++ toString n
  else if n < 1000 then "0" ++ toString n
  else toString n

/-- `dt.strftime("%Y%m%dT%H%M%SZ")`: the datetime's own fields, suffixed `Z`. -/
def strftimeUntilZ (dt : PyDateTime) : String :=
  pad4 dt.year ++ pad2 dt.month ++ pad2 dt.day ++ "T" ++
  pad2 dt.hour ++ pad2 dt.minute ++ pad2 dt.second ++ "Z"

/-- `dt.strftime("%Y%m%d")`. -/
def strftimeYmd (dt : PyDateTime) : String :=
  pad4 dt.year ++ pad2 dt.month ++ pad2 dt.day

/-- The UNTIL-boundary computation of `delete_event_from_calendar`
(calendar_service.py lines 320-333): branch on `"T" in instance_start`,
parse (after replacing `Z` by `+00:00` in the datetime case), and format
with `strftime`. -/
def until_of_start (instance_start : String) : Except PyErr String :=
  if instance_start.data.contains 'T' then
    match fromisoformat (pyReplaceZ instance_start) with
    | some dt => .ok (strftimeUntilZ dt)
    | none => .error .valueError
  else
    match fromisoformat instance_start with
    | some dt => .ok (strftimeYmd dt)
    | none => .error .valueError

def nextDay (y m d : Nat) : Nat × Nat × Nat :=
  if d < daysInMonth y m then (y, m, d + 1)
  else if m < 12 then (y, m + 1, 1)
  else (y + 1, 1, 1)

def prevDay (y m d : Nat) : Nat × Nat × Nat :=
  if 1 < d then (y, m, d - 1)
  else if 1 < m then (y, m - 1, daysInMonth y (m - 1))
  else (y - 1, 12, 31)

/-- Modelled from the spec: express an offset-aware datetime's instant in
UTC (`astimezone(datetime.UTC)` at seconds precision): shift the
wall-clock time of day by the offset, carrying or borrowing one civil day
when it leaves the day.  Used only to compare the spec's "that same
instant expressed in UTC" against the source-derived `until_of_start`. -/
def astimezoneUTC (dt : PyDateTime) : PyDateTime :=
  match dt.offsetMinutes with
  | none => dt
  | some off =>
    let tot : Int := ((dt.hour * 60 + dt.minute : Nat) : Int) - off
    if tot < 0 then
      let ymd := prevDay dt.year dt.month dt.day
      let t2 := (tot + 1440).toNat
      ⟨ymd.1, ymd.2.1, ymd.2.2, t2 / 60, t2 % 60, dt.second, some 0⟩
    else if 1440 ≤ tot then
      let ymd := nextDay dt.year dt.month dt.day
      let t2 := (tot - 1440).toNat
      ⟨ymd.1, ymd.2.1, ymd.2.2, t2 / 60, t2 % 60, dt.second, some 0⟩
    else
      ⟨dt.year, dt.month, dt.day, tot.toNat / 60, tot.toNat % 60, dt.second, some 0⟩

/-- Modelled from the spec: the UNTIL boundary the spec describes for a
date-time start, "`YYYYMMDDTHHMMSSZ` denoting that same instant expressed
in UTC at seconds precision". -/
def spec_until_utc (instance_start : String) : Option String :=
  (fromisoformat (pyReplaceZ instance_start)).map (fun dt => strftimeUntilZ (astimezoneUTC dt))

/-!
Calendar service model.  The remote Google Calendar backend is an
injected collaborator: a record of oracle functions, each returning
`Except String` (an `Except.error` models a `googleapiclient` `HttpError`,
which the source never catches).  Events carry the fields the source
reads; `start`/`end` are the `{"dateTime"/"date": value}` dictionaries.
Every embedded operation also returns the list of remote calls it issued,
in order, so frame claims about which calls are (not) made can be stated.
-/
structure CalendarEntry where
  id : String
  summary : Option String
  deriving DecidableEq, Repr

structure GEvent where
  id : Option String
  summary : Option String
  description : Option String
  start : List (String × String)
  end_ : List (String × String)
  status : Option String
  recurringEventId : Option String
  recurrence : List String
  deriving DecidableEq, Repr

/-- The `params` dictionary built by `list_all_events` (calendar_service.py
lines 67-74). -/
structure EventsListParams where
  calendarId : String
  maxResults : Nat
  singleEvents : Bool
  orderBy : String
  timeMin : String
  timeMax : String
  deriving DecidableEq, Repr

structure Service where
  calendarItems : Except String (List CalendarEntry)
  getEv : String → String → Except String GEvent
  listEv : EventsListParams → Except String (List GEvent)
  insEv : String → GEvent → Except String GEvent
  updEv : String → String → GEvent → Except String GEvent
  delEv : String → String → Except String Unit

/-- One remote call, as issued by the embedded operations. -/
inductive RemoteCall where
  | listCalendars : RemoteCall
  | getEvent (calendarId eventId : String) : RemoteCall
  | listEvents (params : EventsListParams) : RemoteCall
  | insertEvent (calendarId : String) (body : GEvent) : RemoteCall
  | updateEvent (calendarId eventId : String) (body : GEvent) : RemoteCall
  | deleteEvent (calendarId eventId : String) : RemoteCall
  deriving DecidableEq, Repr

/-- Python truthiness of an optional string (`None` and `""` are falsy). -/
def truthyOpt : Option String → Bool
  | none => false
  | some s => s != ""

/-- Python's `a or b` on optional strings. -/
def pyOr (a b : Option String) : Option String :=
  if truthyOpt a then a else b

def optJson : Option String → Json
  | some s => Json.str s
  | none => Json.null

def strDictJson (d : List (String × String)) : Json :=
  Json.obj (d.map (fun kv => (kv.1, Json.str kv.2)))

/-- `find_ai_calendar`'s scan (calendar_service.py lines 31-34): first
calendar whose `summary` equals "AI". -/
def firstAI : List CalendarEntry → Option String
  | [] => none
  | c :: rest => if c.summary = some "AI" then some c.id else firstAI rest

/-- `find_ai_calendar` (calendar_service.py lines 21-34). -/
def find_ai_calendar (svc : Service) : List RemoteCall × Except PyErr (Option String) :=
  match svc.calendarItems with
  | .error e => ([.listCalendars], .error (.httpError e))
  | .ok items => ([.listCalendars], .ok (firstAI items))

/-- `create_event_in_calendar` (calendar_service.py lines 95-137).  The
body carries only the fields the source sets; `description` is included
only when truthy. -/
def create_event_body (summary start_time end_time : String)
    (description : Option String) : GEvent :=
  { id := none, summary := some summary,
    description := if truthyOpt description then description else none,
    start := [("dateTime", start_time)], end_ := [("dateTime", end_time)],
    status := none, recurringEventId := none, recurrence := [] }

def create_event_in_calendar (svc : Service) (calendar_id summary start_time end_time : String)
    (description : Option String) : List RemoteCall × Except PyErr Json :=
  let event_body := create_event_body summary start_time end_time description
  match svc.insEv calendar_id event_body with
  | .error e => ([.insertEvent calendar_id event_body], .error (.httpError e))
  | .ok created_event =>
    ([.insertEvent calendar_id event_body], .ok (Json.obj [("id", optJson created_event.id)]))

/-- The field overrides of `update_event_in_calendar` (calendar_service.py
lines 228-235 and 253-260): each provided (non-`None`) field replaces the
event's; `start`/`end` overrides set the `dateTime` entry of the dict. -/
def applyFields (e : GEvent) (summary description start_time end_time : Option String) : GEvent :=
  { e with
    summary := match summary with | some s => some s | none => e.summary,
    description := match description with | some d => some d | none => e.description,
    start := match start_time with | some st => alistSet e.start "dateTime" st | none => e.start,
    end_ := match end_time with | some et => alistSet e.end_ "dateTime" et | none => e.end_ }

/-- The single-instance branch of `update_event_in_calendar`
(calendar_service.py lines 252-276). -/
def update_single_path (svc : Service) (calendar_id event_id : String)
    (summary start_time end_time description : Option String) (event : GEvent) :
    List RemoteCall × Except PyErr Json :=
  let body := applyFields event summary description start_time end_time
  match svc.updEv calendar_id event_id body with
  | .error e => ([.updateEvent calendar_id event_id body], .error (.httpError e))
  | .ok updated_event =>
    ([.updateEvent calendar_id event_id body],
     .ok (Json.obj [("status", Json.str "updated"), ("id", optJson updated_event.id),
       ("summary", optJson updated_event.summary), ("start", strDictJson updated_event.start),
       ("end", strDictJson updated_event.end_), ("calendar_id", Json.str calendar_id),
       ("message", Json.str "Updated single event instance")]))

/-- `update_event_in_calendar` (calendar_service.py lines 183-276). -/
def update_event_in_calendar (svc : Service) (calendar_id event_id : String)
    (summary start_time end_time description : Option String)
    (update_following_instances : Bool) : List RemoteCall × Except PyErr Json :=
  match svc.getEv calendar_id event_id with
  | .error e => ([.getEvent calendar_id event_id], .error (.httpError e))
  | .ok event =>
    let tr0 := [RemoteCall.getEvent calendar_id event_id]
    let single :=
      update_single_path svc calendar_id event_id summary start_time end_time description event
    if update_following_instances then
      match event.recurringEventId with
      | some recurring_event_id =>
        if recurring_event_id != "" then
          match svc.getEv calendar_id recurring_event_id with
          | .error e =>
            (tr0 ++ [.getEvent calendar_id recurring_event_id], .error (.httpError e))
          | .ok parent_event =>
            let body := applyFields parent_event summary description start_time end_time
            let tr := tr0 ++ [RemoteCall.getEvent calendar_id recurring_event_id,
              RemoteCall.updateEvent calendar_id recurring_event_id body]
            match svc.updEv calendar_id recurring_event_id body with
            | .error e => (tr, .error (.httpError e))
            | .ok _ =>
              (tr, .ok (Json.obj [("status", Json.str "updated_following_instances"),
                ("id", Json.str event_id), ("recurring_event_id", Json.str recurring_event_id),
                ("calendar_id", Json.str calendar_id),
                ("message", Json.str "Updated this instance and all following instances")]))
        else (tr0 ++ single.1, single.2)
      | none => (tr0 ++ single.1, single.2)
    else (tr0 ++ single.1, single.2)

/-- Whether a string begins with the given characters. -/
def strStartsWith (p s : String) : Bool := p.data.isPrefixOf s.data

/-- Python `s.split(c)` for a one-character separator. -/
def splitChars (c : Char) : List Char → List (List Char)
  | [] => [[]]
  | a :: rest =>
    let r := splitChars c rest
    if a = c then [] :: r
    else
      match r with
      | h :: t => (a :: h) :: t
      | [] => [[a]]

def splitOnChar (c : Char) (s : String) : List String :=
  (splitChars c s.data).map (fun l => ⟨l⟩)

/-- Python `";".join(parts)`. -/
def joinSemi : List String → String
  | [] => ""
  | [s] => s
  | s :: rest => s ++ ";" ++ joinSemi rest

/-- The per-rule rewrite of `delete_event_from_calendar`
(calendar_service.py lines 339-348): an `RRULE:`-prefixed rule is split on
`;`, the parts starting with `UNTIL=` or `COUNT=` are dropped, and
`;UNTIL=<until_date>` is appended; other rules pass through unchanged. -/
def rewrite_rule (until_date rule : String) : String :=
  if strStartsWith "RRULE:" rule then
    let parts := splitOnChar ';' rule
    let filtered_parts :=
      parts.filter (fun p => !(strStartsWith "UNTIL=" p) && !(strStartsWith "COUNT=" p))
    joinSemi filtered_parts ++ ";UNTIL=" ++ until_date
  else rule

/-- The loop over `parent_event.get("recurrence", [])` (calendar_service.py
lines 336-348). -/
def rewrite_recurrence (recurrence : List String) (until_date : String) : List String :=
  recurrence.map (rewrite_rule until_date)

/-- The unconditional single-event deletion at the bottom of
`delete_event_from_calendar` (calendar_service.py lines 367-378). -/
def delete_single_path (svc : Service) (calendar_id event_id : String) :
    List RemoteCall × Except PyErr Json :=
  match svc.delEv calendar_id event_id with
  | .error e => ([.deleteEvent calendar_id event_id], .error (.httpError e))
  | .ok _ =>
    ([.deleteEvent calendar_id event_id],
     .ok (Json.obj [("status", Json.str "deleted"), ("event_id", Json.str event_id),
       ("calendar_id", Json.str calendar_id),
       ("message", Json.str "Deleted single event instance")]))

/-- `delete_event_from_calendar` (calendar_service.py lines 279-378). -/
def delete_event_from_calendar (svc : Service) (calendar_id event_id : String)
    (delete_following_instances : Bool) : List RemoteCall × Except PyErr Json :=
  if delete_following_instances then
    match svc.getEv calendar_id event_id with
    | .error e => ([.getEvent calendar_id event_id], .error (.httpError e))
    | .ok event =>
      let tr0 := [RemoteCall.getEvent calendar_id event_id]
      match event.recurringEventId with
      | some recurring_event_id =>
        if recurring_event_id != "" then
          match svc.getEv calendar_id recurring_event_id with
          | .error e =>
            (tr0 ++ [.getEvent calendar_id recurring_event_id], .error (.httpError e))
          | .ok parent_event =>
            let tr1 := tr0 ++ [RemoteCall.getEvent calendar_id recurring_event_id]
            let instance_start :=
              pyOr (alistGet event.start "dateTime") (alistGet event.start "date")
            if truthyOpt instance_start then
              match until_of_start (instance_start.getD "") with
              | .error e => (tr1, .error e)
              | .ok until_date =>
                let body :=
                  { parent_event with
                    recurrence := rewrite_recurrence parent_event.recurrence until_date }
                let tr2 := tr1 ++ [RemoteCall.updateEvent calendar_id recurring_event_id body]
                match svc.updEv calendar_id recurring_event_id body with
                | .error e => (tr2, .error (.httpError e))
                | .ok _ =>
                  (tr2, .ok (Json.obj [("status", Json.str "deleted_following_instances"),
                    ("event_id", Json.str event_id),
                    ("recurring_event_id", Json.str recurring_event_id),
                    ("calendar_id", Json.str calendar_id),
                    ("until_date", Json.str until_date),
                    ("message", Json.str
                      ("Deleted this instance and all following instances (set UNTIL to "
                        ++ until_date ++ ")"))]))
            else
              let single := delete_single_path svc calendar_id event_id
              (tr1 ++ single.1, single.2)
        else
          let single := delete_single_path svc calendar_id event_id
          (tr0 ++ single.1, single.2)
      | none =>
        let single := delete_single_path svc calendar_id event_id
        (tr0 ++ single.1, single.2)
  else delete_single_path svc calendar_id event_id

/-- `datetime.isoformat()` of a seconds-precision datetime. -/
def pyIsoformat (dt : PyDateTime) : String :=
  pad4 dt.year ++ "-" ++ pad2 dt.month ++ "-" ++ pad2 dt.day ++ "T" ++
  pad2 dt.hour ++ ":" ++ pad2 dt.minute ++ ":" ++ pad2 dt.second ++
  (match dt.offsetMinutes with
   | none => ""
   | some off =>
     (if off < 0 then "-" else "+") ++ pad2 (off.natAbs / 60) ++ ":" ++ pad2 (off.natAbs % 60))

/-- `now - datetime.timedelta(days=3)`: three civil days back, time of day
unchanged. -/
def subDays3 (dt : PyDateTime) : PyDateTime :=
  let a := prevDay dt.year dt.month dt.day
  let b := prevDay a.1 a.2.1 a.2.2
  let c := prevDay b.1 b.2.1 b.2.2
  { dt with year := c.1, month := c.2.1, day := c.2.2 }

/-- `now + datetime.timedelta(days=3)`. -/
def addDays3 (dt : PyDateTime) : PyDateTime :=
  let a := nextDay dt.year dt.month dt.day
  let b := nextDay a.1 a.2.1 a.2.2
  let c := nextDay b.1 b.2.1 b.2.2
  { dt with year := c.1, month := c.2.1, day := c.2.2 }

/-- The `if not time_min:` default of `list_all_events` (calendar_service.py
lines 55-56); `now` is the clock value read when the default is computed. -/
def resolve_time_min (time_min : Option String) (now : PyDateTime) : String :=
  if truthyOpt time_min then time_min.getD "" else pyIsoformat (subDays3 now)

/-- The `if not time_max:` default (calendar_service.py lines 57-58). -/
def resolve_time_max (time_max : Option String) (now : PyDateTime) : String :=
  if truthyOpt time_max then time_max.getD "" else pyIsoformat (addDays3 now)

/-- The simplified event dictionary built per event (calendar_service.py
lines 79-88): fixed fields plus `description` only when present. -/
def simplify_event (e : GEvent) : Json :=
  Json.obj ([("id", optJson e.id), ("summary", optJson e.summary),
    ("start", strDictJson e.start), ("end", strDictJson e.end_), ("status", optJson e.status)]
    ++ (match e.description with | some d => [("description", Json.str d)] | none => []))

/-- The per-calendar loop of `list_all_events` (calendar_service.py lines
64-90): one `events().list` call per calendar, in directory order, each
with the same `maxResults` and time window, results concatenated. -/
def list_events_loop (svc : Service) (max_results : Nat) (tmin tmax : String) :
    List CalendarEntry → Except PyErr (List Json)
  | [] => .ok []
  | c :: rest =>
    let params : EventsListParams :=
      { calendarId := c.id, maxResults := max_results, singleEvents := true,
        orderBy := "startTime", timeMin := tmin, timeMax := tmax }
    match svc.listEv params with
    | .error e => .error (.httpError e)
    | .ok events =>
      match list_events_loop svc max_results tmin tmax rest with
      | .error e => .error e
      | .ok more => .ok (events.map simplify_event ++ more)

/-- `list_all_events` (calendar_service.py lines 37-92).  `now1` and `now2`
are the two `datetime.datetime.now(tz=datetime.UTC)` clock reads (each
performed only when the corresponding bound is missing). -/
def list_all_events (svc : Service) (max_results : Nat) (time_min time_max : Option String)
    (now1 now2 : PyDateTime) : Except PyErr (List Json) :=
  let tmin := resolve_time_min time_min now1
  let tmax := resolve_time_max time_max now2
  match svc.calendarItems with
  | .error e => .error (.httpError e)
  | .ok items => list_events_loop svc max_results tmin tmax items

/-!
Tool surface (`main.py`).  Token acquisition and `get_calendar_service`
are collaborators supplying the `Service` value; each tool finds the "AI"
calendar first and returns the structured error result when it is absent.
-/

/-- The error result the event tools return when no "AI" calendar exists
(main.py lines 100-102, 157-159, 196-198). -/
def ai_not_found_json : Json :=
  errResult
    "Calendar named 'AI' not found. Please create a calendar named 'AI' in Google Calendar first."

/-- The `create_event` tool (main.py lines 76-104). -/
def create_event_tool (svc : Service) (summary start_time end_time : String)
    (description : Option String) : List RemoteCall × Except PyErr Json :=
  match find_ai_calendar svc with
  | (t, .error e) => (t, .error e)
  | (t, .ok ai_calendar_id) =>
    if !truthyOpt ai_calendar_id then (t, .ok ai_not_found_json)
    else
      let r := create_event_in_calendar svc (ai_calendar_id.getD "") summary start_time end_time
        description
      (t ++ r.1, r.2)

/-- The `update_event` tool (main.py lines 127-170). -/
def update_event_tool (svc : Service) (event_id : String)
    (summary start_time end_time description : Option String)
    (update_following_instances : Bool) : List RemoteCall × Except PyErr Json :=
  match find_ai_calendar svc with
  | (t, .error e) => (t, .error e)
  | (t, .ok ai_calendar_id) =>
    if !truthyOpt ai_calendar_id then (t, .ok ai_not_found_json)
    else
      let r := update_event_in_calendar svc (ai_calendar_id.getD "") event_id summary
        start_time end_time description update_following_instances
      (t ++ r.1, r.2)

/-- The `delete_event` tool (main.py lines 174-200). -/
def delete_event_tool (svc : Service) (event_id : String)
    (delete_following_instances : Bool) : List RemoteCall × Except PyErr Json :=
  match find_ai_calendar svc with
  | (t, .error e) => (t, .error e)
  | (t, .ok ai_calendar_id) =>
    if !truthyOpt ai_calendar_id then (t, .ok ai_not_found_json)
    else
      let r := delete_event_from_calendar svc (ai_calendar_id.getD "") event_id
        delete_following_instances
      (t ++ r.1, r.2)

/-- Whether a remote call is addressed to the given calendar id
(`listCalendars` is the only call not addressed to a calendar). -/
def callTargets (cid : String) : RemoteCall → Prop
  | .listCalendars => True
  | .getEvent c _ => c = cid
  | .listEvents p => p.calendarId = cid
  | .insertEvent c _ => c = cid
  | .updateEvent c _ _ => c = cid
  | .deleteEvent c _ => c = cid

/-- Whether a remote call reads or mutates events (as opposed to listing
calendars). -/
def isEventCall : RemoteCall → Prop
  | .listCalendars => False
  | _ => True

def dropChars (n : Nat) (s : String) : String := ⟨s.data.drop n⟩

def ruleParams (rule : String) : List String := splitOnChar ';' (dropChars 6 rule)

def isUntilOrCount (p : String) : Bool :=
  strStartsWith "UNTIL=" p || strStartsWith "COUNT=" p

/-- The nested singleton object a fresh path builds: path mapped to value. -/
def nestedSingleton : List String → Json → Json
  | [], v => v
  | k :: rest, v => Json.obj [(k, nestedSingleton rest v)]

/-- Resolve a path through nested objects: `none` when a key is missing or
a non-object is entered (used to state which parent a key path resolves to). -/
def getPathObj : Json → List String → Option Json
  | j, [] => some j
  | Json.obj d, k :: rest =>
    match alistGet d k with
    | some c => getPathObj c rest
    | none => none
  | _, _ :: _ => none

/-- Delete key `k` in the object reached by walking `p` (used to state what
a successful `delete_key_path` removes). -/
def delAtPath : Json → List String → String → Option Json
  | Json.obj d, [], k => some (Json.obj (alistDel d k))
  | Json.obj d, q :: p, k =>
    match alistGet d q with
    | some c => (delAtPath c p k).map (fun c2 => Json.obj (alistSet d q c2))
    | none => none
  | _, _, _ => none

def evC5inst : GEvent :=
  ⟨some "inst", some "old", none, [("dateTime", "2025-06-10T09:00:00Z")],
   [("dateTime", "2025-06-10T10:00:00Z")], none, some "par", []⟩

def evC5par : GEvent :=
  ⟨some "par", some "old", none, [("dateTime", "2025-06-01T09:00:00Z")],
   [("dateTime", "2025-06-01T10:00:00Z")], none, none, ["RRULE:FREQ=DAILY"]⟩

def svcC4 : Service :=
  { calendarItems := .ok [⟨"c1", some "Work"⟩], getEv := fun _ _ => .error "boom",
    listEv := fun _ => .error "boom", insEv := fun _ _ => .error "boom",
    updEv := fun _ _ _ => .error "boom", delEv := fun _ _ => .error "boom" }

def svcC5 : Service :=
  { calendarItems := .ok [⟨"cal", some "AI"⟩],
    getEv := fun c e =>
      if c = "cal" ∧ e = "inst" then .ok evC5inst
      else if c = "cal" ∧ e = "par" then .ok evC5par
      else .error "404",
    listEv := fun _ => .error "x", insEv := fun _ _ => .error "x",
    updEv := fun _ _ b => .ok b, delEv := fun _ _ => .ok () }

def evC9inst : GEvent := ⟨some "inst", some "m", none, [], [], none, some "par", []⟩

def evC9par : GEvent :=
  ⟨some "par", some "m", none, [("date", "2025-06-01")], [("date", "2025-06-01")], none, none,
   ["RRULE:FREQ=DAILY"]⟩

def svcC9 : Service :=
  { calendarItems := .ok [⟨"cal", some "AI"⟩],
    getEv := fun c e =>
      if c = "cal" ∧ e = "inst" then .ok evC9inst
      else if c = "cal" ∧ e = "par" then .ok evC9par
      else .error "404",
    listEv := fun _ => .error "x", insEv := fun _ _ => .error "x",
    updEv := fun _ _ b => .ok b, delEv := fun _ _ => .ok () }

def evC8a : GEvent :=
  ⟨some "a1", some "A", some "da", [("dateTime", "2025-06-09T09:00:00Z")],
   [("dateTime", "2025-06-09T10:00:00Z")], some "confirmed", none, []⟩

def evC8b : GEvent :=
  ⟨some "b1", some "B", none, [("dateTime", "2025-06-11T09:00:00Z")],
   [("dateTime", "2025-06-11T10:00:00Z")], some "confirmed", none, []⟩

def svcC8 : Service :=
  { calendarItems := .ok [⟨"c1", some "AI"⟩, ⟨"c2", some "Work"⟩],
    getEv := fun _ _ => .error "404",
    listEv := fun ps => if ps.calendarId = "c1" then .ok [evC8a] else .ok [evC8b],
    insEv := fun _ _ => .error "x", updEv := fun _ _ _ => .error "x",
    delEv := fun _ _ => .error "x" }

def svcC10 : Service :=
  { calendarItems := .ok [⟨"c1", some "Home"⟩, ⟨"c2", some "ai"⟩],
    getEv := fun _ _ => .error "404", listEv := fun _ => .error "x",
    insEv := fun _ _ => .error "x", updEv := fun _ _ _ => .error "x",
    delEv := fun _ _ => .error "x" }

/-- Claim C1: the tail-truncation rewrite is claimed to map every
`RRULE:`-prefixed rule to one with no pre-existing `UNTIL=` or `COUNT=`
parameter and exactly one appended `UNTIL=` parameter, regardless of where
`UNTIL`/`COUNT` appeared, including as the first parameter after the
`RRULE:` prefix.  Evaluating the source's rewrite at such a rule shows the
code keeps a first-position `UNTIL=` parameter (the split part starts with
`RRULE:`, not `UNTIL=`, so the filter misses it), leaving two `UNTIL`
parameters in the rewritten rule, against the code's own comment
"Remove existing UNTIL or COUNT if present". -/
theorem rewrite_recurrence_keeps_leading_until_cex :
    rewrite_recurrence ["RRULE:UNTIL=20240101T000000Z;FREQ=DAILY"] "20250610T090000Z"
      = ["RRULE:UNTIL=20240101T000000Z;FREQ=DAILY;UNTIL=20250610T090000Z"]
    ∧ ((ruleParams "RRULE:UNTIL=20240101T000000Z;FREQ=DAILY;UNTIL=20250610T090000Z").filter
        isUntilOrCount).length = 2
    ∧ (ruleParams "RRULE:UNTIL=20240101T000000Z;FREQ=DAILY;UNTIL=20250610T090000Z").head?
        = some "UNTIL=20240101T000000Z" :=
  ⟨rfl, rfl, rfl⟩

/-- Claim C3: insertPath is claimed to create each missing key nested
under the previously walked key, with the demotion example yielding
exactly one root key.  Evaluating the source at the claim's own example
shows the loop never advances its cursor into the nested dictionary, so
after demoting the scalar it also creates the path's second key at the
root: the result carries the extra root-level entry "b" mapped to an
empty object, contradicting the code's comment "Navigate to the target
location, creating nested structure as needed". -/
theorem insert_key_path_root_level_cex :
    insert_key_path [("n", some (Json.obj [("a", Json.str "scalar")]))] "n" ["a", "b"]
      = .ok ([("n", some (Json.obj [("a", Json.obj [("b", Json.str "scalar")]),
                                    ("b", Json.obj [])]))],
             msgResult "Key inserted successfully.") := rfl

/-- Claim C2, counterexample: for an instance start carrying a non-zero
ISO 8601 offset, the computed UNTIL boundary renders the start's wall-clock
fields with a literal `Z` and so does not denote the start's instant
expressed in UTC: the code yields 20250610T090000Z where that instant in
UTC is 20250610T000000Z. -/
theorem until_of_start_offset_not_utc_cex :
    until_of_start "2025-06-10T09:00:00+09:00" = .ok "20250610T090000Z"
    ∧ spec_until_utc "2025-06-10T09:00:00+09:00" = some "20250610T000000Z"
    ∧ ("20250610T090000Z" : String) ≠ "20250610T000000Z" :=
  ⟨rfl, rfl, by decide⟩

theorem fromisoformat_valid {s : String} {dt : PyDateTime}
    (h : fromisoformat s = some dt) : validDT dt = true := by
  unfold fromisoformat at h
  split at h
  next dt' heq =>
    split at h
    next hv => cases h; exact hv
    next => cases h
  next => cases h

theorem astimezoneUTC_zero_offset {dt : PyDateTime} (hv : validDT dt = true)
    (h0 : dt.offsetMinutes = some 0) : astimezoneUTC dt = dt := by
  obtain ⟨y, mo, da, h, mi, se, off⟩ := dt
  simp only at h0
  subst h0
  simp only [validDT, Bool.and_eq_true, decide_eq_true_eq] at hv
  obtain ⟨hy1, hy2, hm1, hm2, hd1, hd2, hh, hmi, hse, hoff⟩ := hv
  simp only [astimezoneUTC]
  rw [if_neg (by omega), if_neg (by omega)]
  simp only [PyDateTime.mk.injEq, true_and, and_true]
  constructor <;> omega

/-- Claim C2 (amended): the computed UNTIL boundary renders the parsed
start's own wall-clock fields as `YYYYMMDDTHHMMSSZ` — which denotes the
start's instant expressed in UTC exactly when the start's offset is zero
(`Z` or `+00:00`) — and a date-only start as `YYYYMMDD`; in particular an
instance starting 2025-06-10T09:00:00Z under RRULE:FREQ=DAILY yields the
rule RRULE:FREQ=DAILY;UNTIL=20250610T090000Z. -/
theorem until_of_start_amended (s : String) (dt : PyDateTime) :
    (s.data.contains 'T' = true → fromisoformat (pyReplaceZ s) = some dt →
       until_of_start s = .ok (strftimeUntilZ dt)
       ∧ (dt.offsetMinutes = some 0 → spec_until_utc s = some (strftimeUntilZ dt)))
    ∧ (s.data.contains 'T' = false → fromisoformat s = some dt →
       until_of_start s = .ok (strftimeYmd dt))
    ∧ rewrite_recurrence ["RRULE:FREQ=DAILY"] "20250610T090000Z"
        = ["RRULE:FREQ=DAILY;UNTIL=20250610T090000Z"]
    ∧ until_of_start "2025-06-10T09:00:00Z" = .ok "20250610T090000Z" := by
  refine ⟨?_, ?_, rfl, rfl⟩
  · intro hT hparse
    constructor
    · unfold until_of_start
      rw [hT, if_pos rfl, hparse]
    · intro h0
      unfold spec_until_utc
      rw [hparse]
      simp only [Option.map_some']
      rw [astimezoneUTC_zero_offset (fromisoformat_valid hparse) h0]
  · intro hT hparse
    unfold until_of_start
    rw [hT, if_neg Bool.false_ne_true, hparse]

theorem until_of_start_amended_witness :
    until_of_start "2025-06-10T09:00:00Z" = .ok (strftimeUntilZ ⟨2025, 6, 10, 9, 0, 0, some 0⟩)
    ∧ spec_until_utc "2025-06-10T09:00:00Z" = some (strftimeUntilZ ⟨2025, 6, 10, 9, 0, 0, some 0⟩) := by
  have h := until_of_start_amended "2025-06-10T09:00:00Z" ⟨2025, 6, 10, 9, 0, 0, some 0⟩
  exact ⟨(h.1 rfl rfl).1, (h.1 rfl rfl).2 rfl⟩

/-- Claim C4, counterexample: a note file whose contents are not valid
JSON makes edit_note_value raise (json.load's decode error propagates
uncaught) instead of returning a structured error result. -/
theorem edit_note_value_invalid_json_raises :
    edit_note_value [("n", none)] "n" ["a"] "v" = .error PyErr.jsonDecodeError := rfl

theorem delete_walk_resolved (p : List String) :
    ∀ (doc : Json) (d : List (String × Json)) (k : String),
      getPathObj doc p = some (Json.obj d) →
      (∀ tail, tail ≠ [] → alistGet d k = none →
         delete_walk doc (p ++ k :: tail) = .ok (none, errResult ("Path not found: " ++ k)))
      ∧ (alistGet d k = none →
         delete_walk doc (p ++ [k]) = .ok (none, errResult ("Key '" ++ k ++ "' not found.")))
      ∧ (∀ doc2, (alistGet d k).isSome → delAtPath doc p k = some doc2 →
         delete_walk doc (p ++ [k]) = .ok (some doc2, msgResult "Key deleted successfully.")) := by
  induction p with
  | nil =>
    intro doc d k hres
    simp only [getPathObj] at hres
    cases hres
    refine ⟨?_, ?_, ?_⟩
    · intro tail htail hk
      cases tail with
      | nil => cases htail rfl
      | cons r rs =>
        simp only [List.nil_append, delete_walk, pyContains, hk]
        rfl
    · intro hk
      simp only [List.nil_append, delete_walk, pyContains, hk]
      rfl
    · intro doc2 hsome hdel
      simp only [delAtPath] at hdel
      cases hdel
      simp only [List.nil_append, delete_walk, pyContains, hsome]
  | cons q p' ih =>
    intro doc d k hres
    cases doc with
    | null => simp [getPathObj] at hres
    | str s => simp [getPathObj] at hres
    | num n => simp [getPathObj] at hres
    | obj d0 =>
      simp only [getPathObj] at hres
      cases hq : alistGet d0 q with
      | none => rw [hq] at hres; cases hres
      | some child =>
        rw [hq] at hres
        obtain ⟨hPnf, hKnf, hDel⟩ := ih child d k hres
        have hq' : (alistGet d0 q).isSome = true := by rw [hq]; rfl
        refine ⟨?_, ?_, ?_⟩
        · intro tail htail hk
          obtain ⟨a, as, hpp⟩ : ∃ a as, p' ++ k :: tail = a :: as := by
            cases p' <;> exact ⟨_, _, rfl⟩
          have hrec := hPnf tail htail hk
          rw [hpp] at hrec
          simp only [List.cons_append, hpp, delete_walk, pyContains, hq', hq, hrec]
          rfl
        · intro hk
          obtain ⟨a, as, hpp⟩ : ∃ a as, p' ++ [k] = a :: as := by
            cases p' <;> exact ⟨_, _, rfl⟩
          have hrec := hKnf hk
          rw [hpp] at hrec
          simp only [List.cons_append, hpp, delete_walk, pyContains, hq', hq, hrec]
          rfl
        · intro doc2 hsome hdel
          simp only [delAtPath, hq] at hdel
          cases hdc : delAtPath child p' k with
          | none => rw [hdc] at hdel; cases hdel
          | some c2 =>
            rw [hdc] at hdel
            simp only [Option.map_some'] at hdel
            cases hdel
            obtain ⟨a, as, hpp⟩ : ∃ a as, p' ++ [k] = a :: as := by
              cases p' <;> exact ⟨_, _, rfl⟩
            have hrec := hDel c2 hsome hdc
            rw [hpp] at hrec
            simp only [List.cons_append, hpp, delete_walk, pyContains, hq', hq, hrec]
            rfl

/-- Claim C4 (amended): failures the operations explicitly check for are
returned as structured error results — an absent note in all five note
operations, a duplicate title on note creation, a missing "AI" calendar
in each of the three event tools, and a missing intermediate or final
key-path segment in deletePath — while collaborator failures are not
caught: note contents that are not valid JSON make json.load's error
propagate out of setValue and read, a key path whose intermediate key
holds a non-object value makes setValue raise TypeError, and a remote
calendar backend failure propagates out of updateEvent. -/
theorem checked_failures_structured (fs : NoteFS) (title : String) (key : List String)
    (value : String) (svc : Service) (s st et : String) (d : Option String)
    (cal eid : String) (summ stt ett dsc : Option String) (ufi dfi : Bool)
    (doc v : Json) (p tail rest : List String) (k k2 : String)
    (d0 d2 : List (String × Json)) :
    (fsGet fs title = none →
       read_note_content fs title = .ok (errResult "Note not found.")
       ∧ edit_note_value fs title key value = .ok (fs, errResult "Note not found.")
       ∧ insert_key_path fs title key = .ok (fs, errResult "Note not found.")
       ∧ delete_key_path fs title key = .ok (fs, errResult "Note not found.")
       ∧ delete_note_file fs title = .ok (fs, errResult "Note not found."))
    ∧ (∀ c, fsGet fs title = some c →
       create_note_file fs title = .ok (fs, errResult "Note with this title already exists."))
    ∧ (∀ items, svc.calendarItems = .ok items → firstAI items = none →
       create_event_tool svc s st et d = ([.listCalendars], .ok ai_not_found_json)
       ∧ update_event_tool svc eid summ stt ett dsc ufi
           = ([.listCalendars], .ok ai_not_found_json)
       ∧ delete_event_tool svc eid dfi = ([.listCalendars], .ok ai_not_found_json))
    ∧ (fsGet fs title = some (some doc) → getPathObj doc p = some (Json.obj d2) →
       alistGet d2 k = none →
       (tail ≠ [] →
          delete_key_path fs title (p ++ k :: tail)
            = .ok (fs, errResult ("Path not found: " ++ k)))
       ∧ delete_key_path fs title (p ++ [k])
           = .ok (fs, errResult ("Key '" ++ k ++ "' not found.")))
    ∧ (fsGet fs title = some none →
       edit_note_value fs title key value = .error .jsonDecodeError
       ∧ read_note_content fs title = .error .jsonDecodeError)
    ∧ (fsGet fs title = some (some (Json.obj d0)) → alistGet d0 k = some v →
       (∀ dv, v ≠ Json.obj dv) →
       edit_note_value fs title (k :: k2 :: rest) value = .error .typeError)
    ∧ (∀ msg, svc.getEv cal eid = .error msg →
       update_event_in_calendar svc cal eid summ stt ett dsc ufi
         = ([.getEvent cal eid], .error (.httpError msg))) := by
  refine ⟨?_, ?_, ?_, ?_, ?_, ?_, ?_⟩
  · intro habs
    refine ⟨?_, ?_, ?_, ?_, ?_⟩ <;>
      simp only [read_note_content, edit_note_value, insert_key_path, delete_key_path,
        delete_note_file, habs]
  · intro c hc
    simp only [create_note_file, hc]
  · intro items hitems hai
    refine ⟨?_, ?_, ?_⟩ <;>
      simp only [create_event_tool, update_event_tool, delete_event_tool, find_ai_calendar,
        hitems, hai, truthyOpt, Bool.not_false, if_pos]
  · intro hdoc hres hk
    constructor
    · intro ht
      simp only [delete_key_path, hdoc,
        (delete_walk_resolved p doc d2 k hres).1 tail ht hk]
    · simp only [delete_key_path, hdoc, (delete_walk_resolved p doc d2 k hres).2.1 hk]
  · intro hinv
    exact ⟨by simp only [edit_note_value, hinv], by simp only [read_note_content, hinv]⟩
  · intro hdoc hk hnotobj
    have hwalk : edit_walk (Json.obj d0) (k :: k2 :: rest) (Json.str value)
        = .error .typeError := by
      simp only [edit_walk, hk, Option.getD]
      cases v with
      | obj dv => exact absurd rfl (hnotobj dv)
      | null => rfl
      | str sv => rfl
      | num nv => rfl
    simp only [edit_note_value, hdoc, hwalk]
  · intro msg hmsg
    simp only [update_event_in_calendar, hmsg]

theorem checked_failures_structured_witness :
    read_note_content [] "t" = .ok (errResult "Note not found.")
    ∧ create_event_tool svcC4 "s" "st" "et" none = ([.listCalendars], .ok ai_not_found_json)
    ∧ update_event_tool svcC4 "e1" none none none none false
        = ([.listCalendars], .ok ai_not_found_json)
    ∧ delete_event_tool svcC4 "e1" false = ([.listCalendars], .ok ai_not_found_json)
    ∧ delete_key_path [("q", some (Json.obj []))] "q" ["z", "w"]
        = .ok ([("q", some (Json.obj []))], errResult "Path not found: z")
    ∧ delete_key_path [("q", some (Json.obj []))] "q" ["z"]
        = .ok ([("q", some (Json.obj []))], errResult "Key 'z' not found.")
    ∧ edit_note_value [("n", none)] "n" ["a"] "v" = .error PyErr.jsonDecodeError
    ∧ edit_note_value [("m", some (Json.obj [("a", Json.str "sv")]))] "m" ["a", "b"] "v"
        = .error PyErr.typeError := by
  have h1 := checked_failures_structured [] "t" [] "v" svcC4 "s" "st" "et" none
    "cal" "eid" none none none none false false Json.null Json.null [] [] [] "a" "b" [] []
  have hA := h1.2.2.1 [⟨"c1", some "Work"⟩] rfl rfl
  have h2 := checked_failures_structured [("q", some (Json.obj []))] "q" [] "v" svcC4
    "s" "st" "et" none "cal" "eid" none none none none false false
    (Json.obj []) Json.null [] ["w"] [] "z" "b" [] []
  have hd := h2.2.2.2.1 rfl rfl rfl
  have h3 := checked_failures_structured [("n", none)] "n" ["a"] "v" svcC4
    "s" "st" "et" none "cal" "eid" none none none none false false
    Json.null Json.null [] [] [] "a" "b" [] []
  have h4 := checked_failures_structured [("m", some (Json.obj [("a", Json.str "sv")]))]
    "m" [] "v" svcC4 "s" "st" "et" none "cal" "eid" none none none none false false
    Json.null (Json.str "sv") [] [] [] "a" "b" [("a", Json.str "sv")] []
  exact ⟨(h1.1 rfl).1, hA.1, hA.2.1, hA.2.2, hd.1 (by simp), hd.2,
    (h3.2.2.2.2.1 rfl).1,
    h4.2.2.2.2.2.1 rfl rfl (fun dv hcontra => Json.noConfusion hcontra)⟩

theorem edit_walk_empty_doc (key : List String) (v : Json) (hne : key ≠ []) :
    edit_walk (Json.obj []) key v = .ok (nestedSingleton key v) := by
  induction key with
  | nil => cases hne rfl
  | cons k rest ih =>
    cases rest with
    | nil => rfl
    | cons k2 r2 =>
      simp only [edit_walk, alistGet, Option.getD]
      rw [ih (by simp)]
      rfl

theorem alistGet_alistSet {α : Type} (l : List (String × α)) (k : String) (v : α) :
    alistGet (alistSet l k v) k = some v := by
  induction l with
  | nil => simp [alistGet, alistSet]
  | cons hd rest ih =>
    obtain ⟨k', v'⟩ := hd
    by_cases hk : k' = k
    · subst hk; simp [alistGet, alistSet]
    · simp [alistGet, alistSet, hk, ih]

/-- Claim C6: on a title bound to an empty object document and any
non-empty key path, setValue followed by read yields the nested singleton
object mapping the path to the value, with empty objects created at each
missing intermediate key and an unconditional overwrite at the leaf. -/
theorem set_value_read_round_trip (fs : NoteFS) (title : String) (key : List String)
    (v : String) (hdoc : fsGet fs title = some (some (Json.obj []))) (hne : key ≠ []) :
    edit_note_value fs title key v
      = .ok (fsSet fs title (some (nestedSingleton key (Json.str v))),
             msgResult "Note updated successfully.")
    ∧ read_note_content (fsSet fs title (some (nestedSingleton key (Json.str v)))) title
      = .ok (nestedSingleton key (Json.str v)) := by
  constructor
  · simp only [edit_note_value, hdoc, edit_walk_empty_doc key (Json.str v) hne]
  · simp only [read_note_content, fsGet, fsSet, alistGet_alistSet]

theorem set_value_read_round_trip_witness :
    edit_note_value [("t", some (Json.obj []))] "t" ["a", "b"] "x"
      = .ok (fsSet [("t", some (Json.obj []))] "t"
               (some (nestedSingleton ["a", "b"] (Json.str "x"))),
             msgResult "Note updated successfully.")
    ∧ read_note_content
        (fsSet [("t", some (Json.obj []))] "t" (some (nestedSingleton ["a", "b"] (Json.str "x"))))
        "t"
      = .ok (nestedSingleton ["a", "b"] (Json.str "x")) :=
  set_value_read_round_trip [("t", some (Json.obj []))] "t" ["a", "b"] "x" rfl (by simp)

/-- Claim C7: deletePath fails with NotFound when the document is
absent, with PathNotFound naming the first missing intermediate key, with
KeyNotFound when the final key is absent at the resolved parent, and
otherwise removes exactly the final key and persists; in particular on
the document binding "a" to an object with keys "b" and "c", deleting
path a,b removes only "b", and a second identical call fails with
KeyNotFound. -/
theorem delete_key_path_cases (fs : NoteFS) (title : String) (doc : Json)
    (p tail : List String) (k : String) (d : List (String × Json)) :
    (fsGet fs title = none →
       delete_key_path fs title (p ++ k :: tail) = .ok (fs, errResult "Note not found."))
    ∧ (fsGet fs title = some (some doc) → getPathObj doc p = some (Json.obj d) →
        alistGet d k = none →
        (tail ≠ [] →
           delete_key_path fs title (p ++ k :: tail)
             = .ok (fs, errResult ("Path not found: " ++ k)))
        ∧ (tail = [] →
           delete_key_path fs title (p ++ [k])
             = .ok (fs, errResult ("Key '" ++ k ++ "' not found."))))
    ∧ (fsGet fs title = some (some doc) → getPathObj doc p = some (Json.obj d) →
        (alistGet d k).isSome →
        ∀ doc2, delAtPath doc p k = some doc2 →
          delete_key_path fs title (p ++ [k])
            = .ok (fsSet fs title (some doc2), msgResult "Key deleted successfully."))
    ∧ delete_key_path
        [("t", some (Json.obj [("a", Json.obj [("b", Json.num 1), ("c", Json.num 2)])]))]
        "t" ["a", "b"]
        = .ok ([("t", some (Json.obj [("a", Json.obj [("c", Json.num 2)])]))],
               msgResult "Key deleted successfully.")
    ∧ delete_key_path [("t", some (Json.obj [("a", Json.obj [("c", Json.num 2)])]))] "t" ["a", "b"]
        = .ok ([("t", some (Json.obj [("a", Json.obj [("c", Json.num 2)])]))],
               errResult "Key 'b' not found.") := by
  refine ⟨?_, ?_, ?_, rfl, rfl⟩
  · intro habs
    simp only [delete_key_path, habs]
  · intro hdoc hres hk
    constructor
    · intro ht
      simp only [delete_key_path, hdoc, (delete_walk_resolved p doc d k hres).1 tail ht hk]
    · intro ht
      subst ht
      simp only [delete_key_path, hdoc, (delete_walk_resolved p doc d k hres).2.1 hk]
  · intro hdoc hres hsome doc2 hdel
    simp only [delete_key_path, hdoc, (delete_walk_resolved p doc d k hres).2.2 doc2 hsome hdel]

theorem delete_key_path_cases_witness :
    delete_key_path [("t", some (Json.obj [("x", Json.str "v")]))] "t" ["x"]
      = .ok (fsSet [("t", some (Json.obj [("x", Json.str "v")]))] "t" (some (Json.obj [])),
             msgResult "Key deleted successfully.") := by
  have h := delete_key_path_cases [("t", some (Json.obj [("x", Json.str "v")]))] "t"
    (Json.obj [("x", Json.str "v")]) [] [] "x" [("x", Json.str "v")]
  exact h.2.2.1 rfl rfl rfl (Json.obj []) rfl

/-- Claim C5: an updateEvent call pushes the update to the parent
recurring event id and returns the distinct following-instances tag
exactly when updateFollowingInstances is true and the fetched event has a
recurringEventId; in every other case the provided non-null fields are
applied to the fetched event and the update is pushed to the given single
event id with the single-instance tag. -/
theorem update_event_parent_vs_single (svc : Service) (cal eid : String)
    (summ stt ett dsc : Option String) (ufi : Bool) (e : GEvent)
    (h1 : svc.getEv cal eid = .ok e) :
    (∀ r p u, ufi = true → e.recurringEventId = some r → r ≠ "" →
       svc.getEv cal r = .ok p →
       svc.updEv cal r (applyFields p summ dsc stt ett) = .ok u →
       update_event_in_calendar svc cal eid summ stt ett dsc ufi
         = ([.getEvent cal eid, .getEvent cal r,
             .updateEvent cal r (applyFields p summ dsc stt ett)],
            .ok (Json.obj [("status", Json.str "updated_following_instances"),
              ("id", Json.str eid), ("recurring_event_id", Json.str r),
              ("calendar_id", Json.str cal),
              ("message", Json.str "Updated this instance and all following instances")])))
    ∧ (∀ u, (ufi = false ∨ truthyOpt e.recurringEventId = false) →
       svc.updEv cal eid (applyFields e summ dsc stt ett) = .ok u →
       update_event_in_calendar svc cal eid summ stt ett dsc ufi
         = ([.getEvent cal eid, .updateEvent cal eid (applyFields e summ dsc stt ett)],
            .ok (Json.obj [("status", Json.str "updated"), ("id", optJson u.id),
              ("summary", optJson u.summary), ("start", strDictJson u.start),
              ("end", strDictJson u.end_), ("calendar_id", Json.str cal),
              ("message", Json.str "Updated single event instance")]))) := by
  constructor
  · intro r p u hufi hrec hrne hget hupd
    subst hufi
    have hbne : (r != "") = true := bne_iff_ne.mpr hrne
    simp only [update_event_in_calendar, h1, hrec, hbne, if_true, hget, hupd]
    rfl
  · intro u hcase hupd
    have hsingle : update_single_path svc cal eid summ stt ett dsc e
        = ([.updateEvent cal eid (applyFields e summ dsc stt ett)],
           .ok (Json.obj [("status", Json.str "updated"), ("id", optJson u.id),
             ("summary", optJson u.summary), ("start", strDictJson u.start),
             ("end", strDictJson u.end_), ("calendar_id", Json.str cal),
             ("message", Json.str "Updated single event instance")])) := by
      simp only [update_single_path, hupd]
    cases hufi : ufi with
    | false =>
      simp only [update_event_in_calendar, h1, Bool.false_eq_true, if_false, hsingle]
      rfl
    | true =>
      rcases hcase with h | h
      · rw [hufi] at h; cases h
      · cases hre : e.recurringEventId with
        | none =>
          simp only [update_event_in_calendar, h1, hre, if_true, hsingle]
          rfl
        | some r =>
          rw [hre] at h
          have hb : (r != "") = false := h
          simp only [update_event_in_calendar, h1, hre, if_true, hb, Bool.false_eq_true,
            if_false, hsingle]
          rfl

theorem update_event_parent_vs_single_witness :
    update_event_in_calendar svcC5 "cal" "inst" (some "new") none none none true
      = ([.getEvent "cal" "inst", .getEvent "cal" "par",
          .updateEvent "cal" "par" (applyFields evC5par (some "new") none none none)],
         .ok (Json.obj [("status", Json.str "updated_following_instances"),
           ("id", Json.str "inst"), ("recurring_event_id", Json.str "par"),
           ("calendar_id", Json.str "cal"),
           ("message", Json.str "Updated this instance and all following instances")])) := by
  have h := update_event_parent_vs_single svcC5 "cal" "inst" (some "new") none none none true
    evC5inst rfl
  exact h.1 "par" evC5par (applyFields evC5par (some "new") none none none) rfl rfl
    (by decide) rfl rfl

/-- Claim C9: a deleteEvent call with deleteFollowingInstances=true on
an instance whose fetched event has a recurringEventId but whose start
holds neither a dateTime nor a date leaves the parent unmodified — no
update call is issued to it — and instead deletes the given single event
id, returning the single-instance-deleted result. -/
theorem delete_event_missing_start_single (svc : Service) (cal eid r : String)
    (e p : GEvent)
    (h1 : svc.getEv cal eid = .ok e)
    (h2 : e.recurringEventId = some r) (hr : r ≠ "")
    (h3 : svc.getEv cal r = .ok p)
    (h4 : alistGet e.start "dateTime" = none) (h5 : alistGet e.start "date" = none)
    (h6 : svc.delEv cal eid = .ok ()) :
    delete_event_from_calendar svc cal eid true
      = ([.getEvent cal eid, .getEvent cal r, .deleteEvent cal eid],
         .ok (Json.obj [("status", Json.str "deleted"), ("event_id", Json.str eid),
           ("calendar_id", Json.str cal),
           ("message", Json.str "Deleted single event instance")]))
    ∧ ∀ body, RemoteCall.updateEvent cal r body ∉
        (delete_event_from_calendar svc cal eid true).1 := by
  have hbne : (r != "") = true := bne_iff_ne.mpr hr
  have hmain : delete_event_from_calendar svc cal eid true
      = ([.getEvent cal eid, .getEvent cal r, .deleteEvent cal eid],
         .ok (Json.obj [("status", Json.str "deleted"), ("event_id", Json.str eid),
           ("calendar_id", Json.str cal),
           ("message", Json.str "Deleted single event instance")])) := by
    simp only [delete_event_from_calendar, if_true, h1, h2, hbne, h3, pyOr, h4, h5,
      truthyOpt, Bool.false_eq_true, if_false, delete_single_path, h6]
    rfl
  refine ⟨hmain, ?_⟩
  intro body
  rw [hmain]
  simp

theorem delete_event_missing_start_single_witness :
    delete_event_from_calendar svcC9 "cal" "inst" true
      = ([.getEvent "cal" "inst", .getEvent "cal" "par", .deleteEvent "cal" "inst"],
         .ok (Json.obj [("status", Json.str "deleted"), ("event_id", Json.str "inst"),
           ("calendar_id", Json.str "cal"),
           ("message", Json.str "Deleted single event instance")])) := by
  have h := delete_event_missing_start_single svcC9 "cal" "inst" "par" evC9inst evC9par
    rfl rfl (by decide) rfl rfl rfl rfl
  exact h.1

theorem list_events_loop_ok (svc : Service) (maxr : Nat) (tmin tmax : String)
    (items : List CalendarEntry) (f : CalendarEntry → List GEvent)
    (hev : ∀ c ∈ items, svc.listEv
        { calendarId := c.id, maxResults := maxr, singleEvents := true, orderBy := "startTime",
          timeMin := tmin, timeMax := tmax } = .ok (f c)) :
    list_events_loop svc maxr tmin tmax items
      = .ok ((items.map (fun c => (f c).map simplify_event)).flatten) := by
  induction items with
  | nil => rfl
  | cons c rest ih =>
    have hc := hev c (List.mem_cons_self _ _)
    have hr := ih (fun c' hc' => hev c' (List.mem_cons_of_mem _ hc'))
    simp only [list_events_loop, hc, hr, List.map_cons]
    rfl

/-- Claim C8: listAllEvents applies maxResults to each calendar
individually, returns the concatenation of the per-calendar simplified
event lists in calendar directory order with no global sort, and defaults
an omitted timeMin/timeMax to three days before/after the current UTC
clock value read at call time. -/
theorem list_all_events_concat_defaults (svc : Service) (maxr : Nat) (now1 now2 : PyDateTime)
    (items : List CalendarEntry) (f : CalendarEntry → List GEvent)
    (hcal : svc.calendarItems = .ok items)
    (hev : ∀ c ∈ items, svc.listEv
        { calendarId := c.id, maxResults := maxr, singleEvents := true, orderBy := "startTime",
          timeMin := pyIsoformat (subDays3 now1), timeMax := pyIsoformat (addDays3 now2) }
        = .ok (f c)) :
    list_all_events svc maxr none none now1 now2
      = .ok ((items.map (fun c => (f c).map simplify_event)).flatten)
    ∧ resolve_time_min none now1 = pyIsoformat (subDays3 now1)
    ∧ resolve_time_max none now2 = pyIsoformat (addDays3 now2) := by
  refine ⟨?_, rfl, rfl⟩
  have h := list_events_loop_ok svc maxr (pyIsoformat (subDays3 now1))
    (pyIsoformat (addDays3 now2)) items f hev
  unfold list_all_events
  rw [hcal]
  exact h

theorem list_all_events_concat_defaults_witness :
    list_all_events svcC8 7 none none ⟨2025, 6, 10, 12, 0, 0, some 0⟩
        ⟨2025, 6, 10, 12, 0, 0, some 0⟩
      = .ok [simplify_event evC8a, simplify_event evC8b] := by
  have h := list_all_events_concat_defaults svcC8 7 ⟨2025, 6, 10, 12, 0, 0, some 0⟩
    ⟨2025, 6, 10, 12, 0, 0, some 0⟩ [⟨"c1", some "AI"⟩, ⟨"c2", some "Work"⟩]
    (fun c => if c.id = "c1" then [evC8a] else [evC8b]) rfl
    (by intro c hc; simp at hc; rcases hc with rfl | rfl <;> rfl)
  exact h.1

theorem update_single_path_fst (svc : Service) (cal eid : String)
    (summ stt ett dsc : Option String) (e : GEvent) :
    (update_single_path svc cal eid summ stt ett dsc e).1
      = [.updateEvent cal eid (applyFields e summ dsc stt ett)] := by
  simp only [update_single_path]
  split <;> rfl

theorem delete_single_path_fst (svc : Service) (cal eid : String) :
    (delete_single_path svc cal eid).1 = [.deleteEvent cal eid] := by
  unfold delete_single_path
  split <;> rfl

theorem create_event_in_calendar_fst (svc : Service) (cal summ st et : String)
    (dsc : Option String) :
    (create_event_in_calendar svc cal summ st et dsc).1
      = [RemoteCall.insertEvent cal (create_event_body summ st et dsc)] := by
  unfold create_event_in_calendar
  rcases h : svc.insEv cal (create_event_body summ st et dsc) with e | ev <;> simp [h]

theorem create_event_in_calendar_targets (svc : Service) (cal summ st et : String)
    (dsc : Option String) :
    ∀ call ∈ (create_event_in_calendar svc cal summ st et dsc).1, callTargets cal call := by
  intro call hc
  rw [create_event_in_calendar_fst] at hc
  simp only [List.mem_singleton] at hc
  subst hc
  rfl

theorem update_event_in_calendar_targets (svc : Service) (cal eid : String)
    (summ stt ett dsc : Option String) (ufi : Bool) :
    ∀ call ∈ (update_event_in_calendar svc cal eid summ stt ett dsc ufi).1,
      callTargets cal call := by
  intro call hc
  unfold update_event_in_calendar at hc
  simp only [update_single_path_fst] at hc
  repeat' split at hc
  all_goals try simp only [List.mem_append, List.mem_cons, List.mem_singleton,
    List.not_mem_nil, or_false, false_or] at *
  all_goals try casesm* _ ∨ _
  all_goals try subst_vars
  all_goals trivial

theorem delete_event_from_calendar_targets (svc : Service) (cal eid : String) (dfi : Bool) :
    ∀ call ∈ (delete_event_from_calendar svc cal eid dfi).1, callTargets cal call := by
  intro call hc
  unfold delete_event_from_calendar at hc
  simp only [] at hc
  repeat' split at hc
  all_goals try simp only [delete_single_path_fst, List.mem_append, List.mem_cons,
    List.mem_singleton, List.not_mem_nil, or_false, false_or] at *
  all_goals try casesm* _ ∨ _
  all_goals try subst_vars
  all_goals trivial

theorem firstAI_none (items : List CalendarEntry)
    (h : ∀ c ∈ items, c.summary ≠ some "AI") : firstAI items = none := by
  induction items with
  | nil => rfl
  | cons c rest ih =>
    have hc := h c (List.mem_cons_self _ _)
    simp only [firstAI, if_neg hc]
    exact ih (fun c' hc' => h c' (List.mem_cons_of_mem _ hc'))

/-- Claim C10: when no calendar named exactly "AI" (case-sensitively)
is visible, each of the create_event, update_event and delete_event tools
returns the structured error result having issued only the calendar
listing call — no event read, insert, update or delete; when such a
calendar exists, every event call the tools issue is addressed to that
calendar's id. -/
theorem tools_require_ai_calendar (svc : Service) (items : List CalendarEntry)
    (summary start_time end_time : String) (dsc : Option String) (eid : String)
    (summ stt ett dsc2 : Option String) (ufi dfi : Bool)
    (hcal : svc.calendarItems = .ok items) :
    ((∀ c ∈ items, c.summary ≠ some "AI") →
       create_event_tool svc summary start_time end_time dsc
         = ([.listCalendars], .ok ai_not_found_json)
       ∧ update_event_tool svc eid summ stt ett dsc2 ufi
         = ([.listCalendars], .ok ai_not_found_json)
       ∧ delete_event_tool svc eid dfi = ([.listCalendars], .ok ai_not_found_json))
    ∧ (∀ cid, firstAI items = some cid →
       (∀ call ∈ (create_event_tool svc summary start_time end_time dsc).1,
          callTargets cid call)
       ∧ (∀ call ∈ (update_event_tool svc eid summ stt ett dsc2 ufi).1, callTargets cid call)
       ∧ (∀ call ∈ (delete_event_tool svc eid dfi).1, callTargets cid call)) := by
  constructor
  · intro hnone
    have hai : firstAI items = none := firstAI_none items hnone
    refine ⟨?_, ?_, ?_⟩ <;>
      simp only [create_event_tool, update_event_tool, delete_event_tool, find_ai_calendar,
        hcal, hai, truthyOpt, Bool.not_false, if_pos]
  · intro cid hfst
    have hfind : find_ai_calendar svc = ([.listCalendars], .ok (some cid)) := by
      simp only [find_ai_calendar, hcal, hfst]
    have htool1 : create_event_tool svc summary start_time end_time dsc
        = (if (!truthyOpt (some cid)) = true then ([.listCalendars], .ok ai_not_found_json)
           else ([RemoteCall.listCalendars]
                   ++ (create_event_in_calendar svc ((some cid).getD "") summary start_time
                        end_time dsc).1,
                 (create_event_in_calendar svc ((some cid).getD "") summary start_time
                   end_time dsc).2)) := by
      unfold create_event_tool
      rw [hfind]
    have htool2 : update_event_tool svc eid summ stt ett dsc2 ufi
        = (if (!truthyOpt (some cid)) = true then ([.listCalendars], .ok ai_not_found_json)
           else ([RemoteCall.listCalendars]
                   ++ (update_event_in_calendar svc ((some cid).getD "") eid summ stt ett
                        dsc2 ufi).1,
                 (update_event_in_calendar svc ((some cid).getD "") eid summ stt ett
                   dsc2 ufi).2)) := by
      unfold update_event_tool
      rw [hfind]
    have htool3 : delete_event_tool svc eid dfi
        = (if (!truthyOpt (some cid)) = true then ([.listCalendars], .ok ai_not_found_json)
           else ([RemoteCall.listCalendars]
                   ++ (delete_event_from_calendar svc ((some cid).getD "") eid dfi).1,
                 (delete_event_from_calendar svc ((some cid).getD "") eid dfi).2)) := by
      unfold delete_event_tool
      rw [hfind]
    refine ⟨?_, ?_, ?_⟩ <;> intro call hc
    · rw [htool1] at hc
      split at hc
      · simp only [List.mem_singleton] at hc
        subst hc
        trivial
      · simp only [List.cons_append, List.nil_append, List.mem_cons] at hc
        rcases hc with rfl | hc
        · trivial
        · exact create_event_in_calendar_targets svc cid summary start_time end_time dsc call hc
    · rw [htool2] at hc
      split at hc
      · simp only [List.mem_singleton] at hc
        subst hc
        trivial
      · simp only [List.cons_append, List.nil_append, List.mem_cons] at hc
        rcases hc with rfl | hc
        · trivial
        · exact update_event_in_calendar_targets svc cid eid summ stt ett dsc2 ufi call hc
    · rw [htool3] at hc
      split at hc
      · simp only [List.mem_singleton] at hc
        subst hc
        trivial
      · simp only [List.cons_append, List.nil_append, List.mem_cons] at hc
        rcases hc with rfl | hc
        · trivial
        · exact delete_event_from_calendar_targets svc cid eid dfi call hc

theorem tools_require_ai_calendar_witness :
    create_event_tool svcC10 "s" "2025-06-10T09:00:00Z" "2025-06-10T10:00:00Z" none
      = ([.listCalendars], .ok ai_not_found_json) := by
  have h := tools_require_ai_calendar svcC10 [⟨"c1", some "Home"⟩, ⟨"c2", some "ai"⟩]
    "s" "2025-06-10T09:00:00Z" "2025-06-10T10:00:00Z" none "e1" none none none none
    false false rfl
  exact (h.1 (by decide)).1
